import Mathlib

/-!
# ajdev-compute: request routing and rendering

A shallow embedding of `main.go`: the handler passed to `fsthttp.ServeFunc`,
`getTmplData` and `canCompress`, over explicit models of the collaborators the
handler drives (the response writer, the embedded asset store, the template
engine and the gzip writer).

Go strings that name things (methods, paths, header keys and values, cookie
names and values) are Lean strings; payloads (file contents, response bodies)
are byte lists.
-/

namespace AjDev

/-! ## Strings and paths -/

/-- Payload bytes: file contents and response bodies. -/
abbrev Bytes := List UInt8

/-- The bytes `fmt.Fprint` writes for a Go string literal. -/
def bytesOf (s : String) : Bytes := s.toUTF8.data.toList

/-- Go `strings.HasPrefix(s, p)`. -/
def HasPrefix (s p : String) : Bool := p.data.isPrefixOf s.data

/-- Go `strings.TrimPrefix(s, p)`: `s` without the leading `p`, or `s` itself
when it does not start with `p`. -/
def TrimPrefix (s p : String) : String :=
  if HasPrefix s p then String.mk (s.data.drop p.data.length) else s

/-- Split a character list at every occurrence of `sep` (always at least one
piece). -/
def splitAt (sep : Char) : List Char → List (List Char)
  | [] => [[]]
  | c :: cs =>
    if c = sep then [] :: splitAt sep cs
    else
      match splitAt sep cs with
      | [] => [[c]]
      | x :: xs => (c :: x) :: xs

/-- Go `io/fs.ValidPath`: either the root `.`, or slash-separated elements none
of which is empty, `.` or `..` (so no leading or trailing slash). -/
def ValidPath (name : String) : Bool :=
  name == "." ||
    (splitAt '/' name.data).all
      (fun e => !(e == [] || e == ['.'] || e == ['.', '.']))

/-- Scan of Go `filepath.Ext` over the reversed path: `acc` holds the
characters already passed, in path order. -/
def extScan : List Char → List Char → List Char
  | [], _ => []
  | c :: rest, acc =>
    if c = '/' then []
    else if c = '.' then c :: acc
    else extScan rest (c :: acc)

/-- Go `filepath.Ext`: the suffix starting at the last dot of the last path
element, empty when that element has no dot. -/
def Ext (path : String) : String := String.mk (extScan path.data.reverse [])

/-- Go `filepath.Base` (slash separator, no volume names). -/
def Base (path : String) : String :=
  if path == "" then "."
  else
    let stripped := (path.data.reverse.dropWhile (fun c => c == '/')).reverse
    let last := (stripped.reverse.takeWhile (fun c => !(c == '/'))).reverse
    if last == [] then "/" else String.mk last

/-! ## Package-level data -/

/-- The hardcoded `mimeTypes` map. -/
def mimeTypes : List (String × String) :=
  [ (".css", "text/css"),
    (".ico", "image/x-icon"),
    (".js", "text/javascript"),
    (".pdf", "application/pdf"),
    (".wasm", "application/wasm") ]

/-- The hardcoded `pages` map from URL path to template file. -/
def pages : List (String × String) :=
  [ ("/", "content/templates/index.html"),
    ("/about", "content/templates/about.html"),
    ("/particles", "content/templates/particles.html"),
    ("/resume", "content/templates/resume.html") ]

/-- Default max-age, one week. -/
def cacheMaxAge : Nat := 60 * 60 * 24 * 7

/-- Max-age for 404 responses, one day. -/
def cacheMaxAge404 : Nat := 60 * 60 * 24

/-- Name of the dark-mode cookie. -/
def darkModeCookieKey : String := "aj-dot-dev##dark-mode"

/-- Go `fmt.Sprintf("public, max-age=%d", n)`. -/
def cacheControl (n : Nat) : String := "public, max-age=" ++ toString n

/-- A navigation link; `Active` is rewritten on every page request. -/
structure navLink where
  Name : String
  Path : String
  Active : Bool
  deriving DecidableEq, Repr

/-- The view-model handed to the templates. -/
structure tmplData where
  DarkMode : Bool
  DarkModeCookieKey : String
  NavLinks : List navLink
  deriving DecidableEq, Repr

/-! ## The platform: headers, cookies, requests, the response writer -/

/-- A header map `map[string][]string` as an association list. -/
abbrev Header := List (String × List String)

/-- Go map indexing `h[key]`: the values stored under `key`, none when absent. -/
def Header.values (h : Header) (key : String) : List String :=
  (h.lookup key).getD []

/-- Go `Header.Set`: the single value `v` replaces whatever `key` held. -/
def Header.Set (h : Header) (key v : String) : Header :=
  h.filter (fun e => !(e.1 == key)) ++ [(key, [v])]

/-- The `SameSite` cookie attribute. -/
inductive SameSite where
  | Default
  | Lax
  | Strict
  | None
  deriving DecidableEq, Repr

/-- The fields of `fsthttp.Cookie` the program touches. `Expires` is a time in
seconds, `0` standing for the zero time. -/
structure Cookie where
  Name : String
  Value : String
  Domain : String
  Expires : Nat
  SameSite : SameSite
  deriving DecidableEq, Repr

/-- An inbound request. `Cookies` is the `Cookie` request header in parsed form:
the name/value pairs in the order sent. -/
structure Request where
  Method : String
  Path : String
  Hostname : String
  Header : Header
  Cookies : List (String × String)
  deriving DecidableEq, Repr

/-- Go `Request.Cookie`: the first cookie sent under `name`, if any. A request
cookie carries a name and a value only. -/
def Request.Cookie (r : Request) (name : String) : Option Cookie :=
  (r.Cookies.find? (fun p => p.1 == name)).map
    (fun p => { Name := p.1, Value := p.2, Domain := "", Expires := 0,
                SameSite := SameSite.Default })

/-- Go `Request.AddCookie`: appends `name=value` to the request's `Cookie`
header; the other attributes of `c` are not representable there. -/
def Request.AddCookie (r : Request) (c : AjDev.Cookie) : Request :=
  { r with Cookies := r.Cookies ++ [(c.Name, c.Value)] }

/-- The state of an `fsthttp.ResponseWriter`: the live header map returned by
`Header()`, the status and header snapshot committed by the first
`WriteHeader`, and the body bytes written so far. -/
structure ResponseWriter where
  header : Header
  sent : Option (Nat × Header)
  body : Bytes
  deriving DecidableEq, Repr

/-- The writer a request starts with. -/
def ResponseWriter.fresh : ResponseWriter :=
  { header := [], sent := none, body := [] }

/-- The call `w.Header().Set(key, v)`: changes the live map only. -/
def ResponseWriter.SetHeader (w : ResponseWriter) (key v : String) : ResponseWriter :=
  { w with header := w.header.Set key v }

/-- The call `w.WriteHeader(code)`: commits the status together with the
headers as they are now; a second call has no effect. -/
def ResponseWriter.WriteHeader (w : ResponseWriter) (code : Nat) : ResponseWriter :=
  match w.sent with
  | some _ => w
  | none => { w with sent := some (code, w.header) }

/-- The call `w.Write(p)`: commits status 200 first when nothing is committed
yet, then appends `p` to the body. -/
def ResponseWriter.Write (w : ResponseWriter) (p : Bytes) : ResponseWriter :=
  let w1 := w.WriteHeader 200
  { w1 with body := w1.body ++ p }

/-- The platform closing the writer after the handler returns: commits status
200 when the handler committed nothing. -/
def ResponseWriter.Close (w : ResponseWriter) : ResponseWriter :=
  w.WriteHeader 200

/-- Status and headers a writer has committed, or will commit when closed. -/
def ResponseWriter.committed (w : ResponseWriter) : Nat × Header :=
  w.sent.getD (200, w.header)

/-- A response as the client receives it. -/
structure Response where
  status : Nat
  header : Header
  body : Bytes
  deriving DecidableEq, Repr

/-- The response held by a writer, once something is committed. -/
def ResponseWriter.response (w : ResponseWriter) : Option Response :=
  w.sent.map (fun s => { status := s.1, header := s.2, body := w.body })

/-! ## The collaborators: asset store, template engine, gzip -/

/-- What one `ExecuteTemplate` call does to its writer: the successive `Write`
calls it makes, and whether it then returns an error. -/
structure TmplResult where
  writes : List Bytes
  failed : Bool

/-- Everything the template writes, in order. -/
def TmplResult.output (t : TmplResult) : Bytes := t.writes.flatten

/-- The environment of one request. `static` is the embedded file system rooted
at `content/static` (file name to contents, nothing for directories and missing
names); `parsePage f` tells whether `templates.ParseFS(content, f)` succeeds;
`executePage f n d` is `templates.ExecuteTemplate(_, n, d)` after that parse;
`execute404 n d` is `err404Tmpl.ExecuteTemplate(_, n, d)`; `gzip` is the
complete gzip stream for a payload; `now` is `time.Now()` in seconds. -/
structure Env where
  static : String → Option Bytes
  parsePage : String → Bool
  executePage : String → String → tmplData → TmplResult
  execute404 : String → tmplData → TmplResult
  gzip : Bytes → Bytes
  now : Nat

/-- Go `fs.ReadFile(static, name)`: fails on an invalid path before the file
system is consulted. -/
def ReadFile (fsys : String → Option Bytes) (name : String) : Option Bytes :=
  if ValidPath name then fsys name else none

/-- A `gzip.Writer` layered on the response writer. It touches the underlying
writer on its first `Write` (the stream header goes out then) and on `Close`.
The split of the stream between those two moments is not tracked: the first
write is recorded as an empty write, the whole stream is appended by `Close`. -/
structure GzipWriter where
  wroteHeader : Bool
  pending : Bytes

/-- Go `gzip.NewWriter(w)`: nothing is written yet. -/
def GzipWriter.new : GzipWriter := { wroteHeader := false, pending := [] }

/-- The call `gw.Write(p)`. -/
def GzipWriter.Write (gz : GzipWriter) (w : ResponseWriter) (p : Bytes) :
    GzipWriter × ResponseWriter :=
  ({ wroteHeader := true, pending := gz.pending ++ p },
   if gz.wroteHeader then w else w.Write [])

/-- The call `gw.Close()`: the stream for everything written is complete on the
underlying writer. -/
def GzipWriter.Close (gz : GzipWriter) (gzip : Bytes → Bytes) (w : ResponseWriter) :
    ResponseWriter :=
  w.Write (gzip gz.pending)

/-! ## The program -/

/-- The source function `getTmplData`: returns the template data together with
the package-level `links` and the request as it leaves them. -/
def getTmplData (now : Nat) (links : List navLink) (r : Request) :
    tmplData × List navLink × Request :=
  let links1 := links.map (fun l => { l with Active := l.Path == r.Path })
  let found := r.Cookie darkModeCookieKey
  let dmCookie : Cookie :=
    match found with
    | some c => c
    | none =>
      { Name := darkModeCookieKey,
        Domain := r.Hostname,
        SameSite := SameSite.Strict,
        Expires := now + 60 * 60 * 24 * 365,
        Value := "light" }
  let r1 :=
    match found with
    | some _ => r
    | none => r.AddCookie dmCookie
  ({ DarkModeCookieKey := darkModeCookieKey,
     DarkMode := dmCookie.Value == "dark",
     NavLinks := links1 },
   links1, r1)

/-- The source function `canCompress`. -/
def canCompress (r : Request) : Bool :=
  (r.Header.values "Accept-Encoding").any (fun ac => ac == "gzip")

/-- How the handler ends: by returning, by `log.Fatal`, or by the panic of
`template.Must`. -/
inductive Exit where
  | returned
  | fatal
  | panicked
  deriving DecidableEq, Repr

/-- The state the handler leaves behind. -/
structure Outcome where
  links : List navLink
  request : Request
  w : ResponseWriter
  exit : Exit
  deriving DecidableEq, Repr

/-- The block both asset routes share: for `GET`, print the file to the writer,
through gzip when the client can take it (the deferred `gw.Close()` runs on
return). -/
def writeAsset (env : Env) (r : Request) (w : ResponseWriter) (data : Bytes) :
    ResponseWriter :=
  if r.Method == "GET" then
    if canCompress r then
      let w1 := w.SetHeader "Content-Encoding" "gzip"
      let s := GzipWriter.new.Write w1 data
      s.1.Close env.gzip s.2
    else
      w.Write data
  else
    w

/-- The block both page branches share, given what the template execution
does: execute into the writer, through gzip when the client can take it. On an
execution error the handler calls `WriteHeader(500)` and `log.Fatal`, which
exits without running the deferred `gw.Close()`. -/
def writeTemplate (env : Env) (r : Request) (w : ResponseWriter) (t : TmplResult) :
    ResponseWriter × Exit :=
  if canCompress r then
    let w1 := w.SetHeader "Content-Encoding" "gzip"
    let s := t.writes.foldl (fun s p => s.1.Write s.2 p) (GzipWriter.new, w1)
    if t.failed then (s.2.WriteHeader 500, Exit.fatal)
    else (s.1.Close env.gzip s.2, Exit.returned)
  else
    let w1 := t.writes.foldl (fun w p => w.Write p) w
    if t.failed then (w1.WriteHeader 500, Exit.fatal)
    else (w1, Exit.returned)

/-- The handler function given to `fsthttp.ServeFunc`. -/
def handler (env : Env) (links : List navLink) (r : Request) (w : ResponseWriter) :
    Outcome :=
  if r.Method == "POST" || r.Method == "PUT" || r.Method == "PATCH"
      || r.Method == "DELETE" then
    { links := links, request := r, exit := Exit.returned,
      w := (w.WriteHeader 405).Write (bytesOf "This method is not allowed\n") }
  else if r.Path == "/favicon.ico" then
    match ReadFile env.static "favicon.ico" with
    | none =>
      { links := links, request := r, exit := Exit.returned,
        w := (w.WriteHeader 404).SetHeader "Cache-Control" (cacheControl cacheMaxAge404) }
    | some favicon =>
      let w1 := w.SetHeader "Content-Type" "image/x-icon"
      let w2 := w1.SetHeader "Cache-Control" (cacheControl cacheMaxAge)
      { links := links, request := r, exit := Exit.returned,
        w := writeAsset env r w2 favicon }
  else if HasPrefix r.Path "/static" then
    match ReadFile env.static (TrimPrefix r.Path "/static/") with
    | none =>
      { links := links, request := r, exit := Exit.returned,
        w := (w.SetHeader "Cache-Control" (cacheControl cacheMaxAge404)).WriteHeader 404 }
    | some fdata =>
      let content_type :=
        match mimeTypes.lookup (Ext r.Path) with
        | some ct => ct
        | none => "application/octect-stream"
      let w1 := w.SetHeader "Content-Type" content_type
      let w2 := w1.SetHeader "Cache-Control" (cacheControl cacheMaxAge)
      { links := links, request := r, exit := Exit.returned,
        w := writeAsset env r w2 fdata }
  else
    let td := getTmplData env.now links r
    let w1 := w.SetHeader "Content-Type" "text/html"
    match pages.lookup r.Path with
    | none =>
      let w2 := w1.SetHeader "Cache-Control" (cacheControl cacheMaxAge404)
      let w3 := w2.WriteHeader 404
      if r.Method == "GET" then
        let res := writeTemplate env td.2.2 w3 (env.execute404 "404.html" td.1)
        { links := td.2.1, request := td.2.2, w := res.1, exit := res.2 }
      else
        { links := td.2.1, request := td.2.2, w := w3, exit := Exit.returned }
    | some pageTmpl =>
      let w2 := w1.SetHeader "Cache-Control" (cacheControl cacheMaxAge)
      if r.Method == "GET" then
        if env.parsePage pageTmpl then
          let res := writeTemplate env td.2.2 w2
            (env.executePage pageTmpl (Base pageTmpl) td.1)
          { links := td.2.1, request := td.2.2, w := res.1, exit := res.2 }
        else
          { links := td.2.1, request := td.2.2, w := w2, exit := Exit.panicked }
      else
        { links := td.2.1, request := td.2.2, w := w2, exit := Exit.returned }

/-- The response the client gets for a request on a fresh writer: the platform
closes the writer once the handler has returned. A handler that exits the
process completes no response. -/
def serve (env : Env) (links : List navLink) (r : Request) : Option Response :=
  let out := handler env links r ResponseWriter.fresh
  match out.exit with
  | Exit.returned => out.w.Close.response
  | _ => none

/-! ## A concrete environment for evaluating the program -/

/-- A stand-in gzip encoder: the payload behind the two gzip magic bytes. -/
def demoGzip (b : Bytes) : Bytes := 0x1f :: 0x8b :: b

/-- Inverse of `demoGzip`. -/
def demoGunzip (b : Bytes) : Bytes := b.drop 2

/-- A stand-in template: writes its name, the dark-mode flag and one byte per
navigation link telling whether the link is active. -/
def demoRender (name : String) (d : tmplData) : TmplResult :=
  { writes := [bytesOf name, [if d.DarkMode then 1 else 0],
               d.NavLinks.map (fun l => if l.Active then 1 else 0)],
    failed := false }

/-- A small asset store (no favicon), templates that always succeed. -/
def demoEnv : Env :=
  { static := fun n =>
      if n == "style.css" then some [1, 2, 3]
      else if n == "LICENSE" then some [7]
      else none,
    parsePage := fun _ => true,
    executePage := fun _ n d => demoRender n d,
    execute404 := fun n d => demoRender n d,
    gzip := demoGzip,
    now := 1000 }

/-- A navigation list whose flags were left set by an earlier request. -/
def demoLinks : List navLink :=
  [ { Name := "Home", Path := "/", Active := true },
    { Name := "About", Path := "/about", Active := true } ]

/-- A request to host `aj.dev`. -/
def demoRequest (method path : String) (header : Header)
    (cookies : List (String × String)) : Request :=
  { Method := method, Path := path, Hostname := "aj.dev", Header := header,
    Cookies := cookies }

/-! ## Accept-Encoding as a list of encodings -/

/-- Drop blanks and tabs at both ends. -/
def trimBlanks (cs : List Char) : List Char :=
  let isBlank := fun (c : Char) => c == ' ' || c == '\t'
  ((cs.dropWhile isBlank).reverse.dropWhile isBlank).reverse

/-- The encodings a request advertises when every `Accept-Encoding` value is
read as a comma-separated list, as the specification words it. -/
def advertisedEncodings (r : Request) : List String :=
  (r.Header.values "Accept-Encoding").flatMap
    (fun v => (splitAt ',' v.data).map (fun e => String.mk (trimBlanks e)))

/-! ## Method filter -/

/-- C1: a POST, PUT, PATCH or DELETE request on any path is answered with status
405 and the non-empty body "This method is not allowed\n", and nothing else
happens: the handler returns with that single write on the writer, no header set
(so no cookie sent), the navigation links as they were and the request's cookies
untouched. -/
theorem rejected_method_405 (env : Env) (links : List navLink) (r : Request)
    (hm : r.Method = "POST" ∨ r.Method = "PUT" ∨ r.Method = "PATCH" ∨ r.Method = "DELETE") :
    handler env links r ResponseWriter.fresh =
        { links := links, request := r, exit := Exit.returned,
          w := (ResponseWriter.fresh.WriteHeader 405).Write
                 (bytesOf "This method is not allowed\n") } ∧
      serve env links r =
        some { status := 405, header := [],
               body := bytesOf "This method is not allowed\n" } ∧
      bytesOf "This method is not allowed\n" ≠ [] := by
  have hcond : (r.Method == "POST" || r.Method == "PUT" || r.Method == "PATCH"
      || r.Method == "DELETE") = true := by
    rcases hm with h | h | h | h <;> rw [h] <;> decide
  have hh : handler env links r ResponseWriter.fresh =
      { links := links, request := r, exit := Exit.returned,
        w := (ResponseWriter.fresh.WriteHeader 405).Write
               (bytesOf "This method is not allowed\n") } := by
    unfold handler
    rw [if_pos hcond]
  refine ⟨hh, ?_, by decide⟩
  unfold serve
  rw [hh]
  rfl

/-- C1 at `DELETE /static/style.css`, a path whose file exists. -/
theorem rejected_method_405_witness :
    serve demoEnv demoLinks (demoRequest "DELETE" "/static/style.css" [] []) =
      some { status := 405, header := [],
             body := bytesOf "This method is not allowed\n" } :=
  (rejected_method_405 demoEnv demoLinks (demoRequest "DELETE" "/static/style.css" [] [])
    (Or.inr (Or.inr (Or.inr rfl)))).2.1

/-! ## Navigation links -/

/-- Rewriting the flags against a path no link has leaves no link active. -/
theorem mark_filter_of_not_mem (P : String) (links : List navLink)
    (h : P ∉ links.map navLink.Path) :
    (links.map (fun l => { l with Active := l.Path == P })).filter
      (fun l => l.Active) = [] := by
  induction links with
  | nil => rfl
  | cons l ls ih =>
    simp only [List.map_cons, List.mem_cons, not_or] at h
    have hne : (l.Path == P) = false := by
      simpa using fun e => h.1 e.symm
    simp only [List.map_cons, List.filter_cons, hne]
    simpa using ih h.2

/-- Rewriting the flags against a path of a duplicate-free list leaves exactly
one link active, the one with that path. -/
theorem mark_filter_of_mem (P : String) (links : List navLink)
    (hd : (links.map navLink.Path).Nodup) (h : P ∈ links.map navLink.Path) :
    ∃ l, (links.map (fun l => { l with Active := l.Path == P })).filter
      (fun l => l.Active) = [l] ∧ l.Path = P ∧ l.Active = true := by
  induction links with
  | nil => simp at h
  | cons l ls ih =>
    simp only [List.map_cons, List.nodup_cons] at hd
    by_cases hl : l.Path = P
    · refine ⟨{ l with Active := l.Path == P }, ?_, hl, by simp [hl]⟩
      have hnot : P ∉ ls.map navLink.Path := hl ▸ hd.1
      have hrest := mark_filter_of_not_mem P ls hnot
      have hb : (l.Path == P) = true := by simp [hl]
      simp only [List.map_cons, List.filter_cons, hb, if_true, hrest]
    · have hmem : P ∈ ls.map navLink.Path := by
        simp only [List.map_cons, List.mem_cons] at h
        rcases h with h | h
        · exact absurd h.symm hl
        · exact h
      obtain ⟨l0, h0, h1, h2⟩ := ih hd.2 hmem
      refine ⟨l0, ?_, h1, h2⟩
      have hb : (l.Path == P) = false := by simp [hl]
      simp only [List.map_cons, List.filter_cons, hb]
      simpa using h0

/-- C6: for a navigation list with pairwise distinct paths, whatever the flags
were before, `getTmplData` leaves each link active exactly when its path equals
the request path: the returned links are the package-level links; if the path is
in the list the active links are exactly one link, with that path; if it is not,
no link is active; length, order, names and paths are those of the list. -/
theorem getTmplData_active_links (now : Nat) (links : List navLink) (r : Request)
    (hd : (links.map navLink.Path).Nodup) :
    (getTmplData now links r).1.NavLinks = (getTmplData now links r).2.1 ∧
      (∀ l ∈ (getTmplData now links r).1.NavLinks, (l.Active = true ↔ l.Path = r.Path)) ∧
      (r.Path ∈ links.map navLink.Path →
        ∃ l, (getTmplData now links r).1.NavLinks.filter (fun l => l.Active) = [l]
          ∧ l.Path = r.Path) ∧
      (r.Path ∉ links.map navLink.Path →
        ∀ l ∈ (getTmplData now links r).1.NavLinks, l.Active = false) ∧
      (getTmplData now links r).1.NavLinks.length = links.length ∧
      (getTmplData now links r).1.NavLinks.map navLink.Name = links.map navLink.Name ∧
      (getTmplData now links r).1.NavLinks.map navLink.Path = links.map navLink.Path := by
  have hnav : (getTmplData now links r).1.NavLinks =
      links.map (fun l => { l with Active := l.Path == r.Path }) := rfl
  refine ⟨rfl, ?_, ?_, ?_, ?_, ?_, ?_⟩
  · intro l hl
    rw [hnav, List.mem_map] at hl
    obtain ⟨l0, _, rfl⟩ := hl
    simp
  · intro hmem
    obtain ⟨l, h0, h1, _⟩ := mark_filter_of_mem r.Path links hd hmem
    exact ⟨l, by rw [hnav]; exact h0, h1⟩
  · intro hnot l hl
    rw [hnav, List.mem_map] at hl
    obtain ⟨l0, hl0, rfl⟩ := hl
    have : l0.Path ≠ r.Path := fun e =>
      hnot (e ▸ List.mem_map_of_mem navLink.Path hl0)
    simp [this]
  · rw [hnav, List.length_map]
  · rw [hnav, List.map_map]; rfl
  · rw [hnav, List.map_map]; rfl

/-- C6 at the demo list, both flags set beforehand, request path `/about`. -/
theorem getTmplData_active_links_witness :
    (demoLinks.map navLink.Path).Nodup ∧
      (getTmplData 0 demoLinks (demoRequest "GET" "/about" [] [])).1.NavLinks =
        [ { Name := "Home", Path := "/", Active := false },
          { Name := "About", Path := "/about", Active := true } ] ∧
      (∀ l ∈ (getTmplData 0 demoLinks (demoRequest "GET" "/about" [] [])).1.NavLinks,
        (l.Active = true ↔ l.Path = "/about")) :=
  ⟨by decide, by decide,
   (getTmplData_active_links 0 demoLinks (demoRequest "GET" "/about" [] [])
      (by decide)).2.1⟩

/-! ## Dark mode -/

/-- C7: the `DarkMode` field is true exactly when the request's cookie named
"aj-dot-dev##dark-mode" (the one `Request.Cookie` finds) has the value "dark";
it is false for any other value and when there is no such cookie; and when the
request has at most one value under that name, it is true exactly when the pair
of that name and "dark" is among the request's cookies. The returned key is the
constant "aj-dot-dev##dark-mode". -/
theorem getTmplData_darkMode (now : Nat) (links : List navLink) (r : Request) :
    ((getTmplData now links r).1.DarkMode = true ↔
        ∃ c, r.Cookie "aj-dot-dev##dark-mode" = some c ∧ c.Value = "dark") ∧
      (∀ c, r.Cookie "aj-dot-dev##dark-mode" = some c → c.Value ≠ "dark" →
        (getTmplData now links r).1.DarkMode = false) ∧
      (r.Cookie "aj-dot-dev##dark-mode" = none →
        (getTmplData now links r).1.DarkMode = false) ∧
      ((∀ v1 v2, ("aj-dot-dev##dark-mode", v1) ∈ r.Cookies →
            ("aj-dot-dev##dark-mode", v2) ∈ r.Cookies → v1 = v2) →
        ((getTmplData now links r).1.DarkMode = true ↔
          ("aj-dot-dev##dark-mode", "dark") ∈ r.Cookies)) ∧
      (getTmplData now links r).1.DarkModeCookieKey = "aj-dot-dev##dark-mode" := by
  have hdm : (getTmplData now links r).1.DarkMode =
      (match r.Cookie darkModeCookieKey with
       | some c => c.Value == "dark"
       | none => false) := by
    unfold getTmplData
    cases r.Cookie darkModeCookieKey <;> rfl
  have hkey : darkModeCookieKey = "aj-dot-dev##dark-mode" := rfl
  rw [hkey] at hdm
  have hiff : ((getTmplData now links r).1.DarkMode = true ↔
      ∃ c, r.Cookie "aj-dot-dev##dark-mode" = some c ∧ c.Value = "dark") := by
    rw [hdm]
    cases r.Cookie "aj-dot-dev##dark-mode" with
    | none => simp
    | some c => simp
  refine ⟨hiff, ?_, ?_, ?_, rfl⟩
  · intro c hc hv
    rw [hdm, hc]
    simpa using hv
  · intro hc
    rw [hdm, hc]
  · intro huniq
    rw [hiff]
    constructor
    · rintro ⟨c, hc, hv⟩
      unfold Request.Cookie at hc
      rw [Option.map_eq_some'] at hc
      obtain ⟨p, hp, rfl⟩ := hc
      have hmem := List.mem_of_find?_eq_some hp
      have hname := List.find?_some hp
      simp only [beq_iff_eq] at hname
      simp only at hv
      have : p = ("aj-dot-dev##dark-mode", "dark") := Prod.ext hname hv
      exact this ▸ hmem
    · intro hmem
      unfold Request.Cookie
      cases hf : r.Cookies.find? (fun p => p.1 == "aj-dot-dev##dark-mode") with
      | none =>
        have := List.find?_eq_none.mp hf _ hmem
        simp at this
      | some p =>
        have hpm := List.mem_of_find?_eq_some hf
        have hname := List.find?_some hf
        simp only [beq_iff_eq] at hname
        have hp : p = (p.1, p.2) := rfl
        rw [hp, hname] at hpm
        have := huniq _ _ hpm hmem
        exact ⟨_, rfl, this⟩

/-- C7 on requests carrying "dark", "light", "Dark", the empty value and no
cookie at all. -/
theorem getTmplData_darkMode_witness :
    (getTmplData 0 demoLinks
        (demoRequest "GET" "/" [] [("aj-dot-dev##dark-mode", "dark")])).1.DarkMode = true ∧
      (getTmplData 0 demoLinks
        (demoRequest "GET" "/" [] [("aj-dot-dev##dark-mode", "light")])).1.DarkMode = false ∧
      (getTmplData 0 demoLinks
        (demoRequest "GET" "/" [] [("aj-dot-dev##dark-mode", "Dark")])).1.DarkMode = false ∧
      (getTmplData 0 demoLinks
        (demoRequest "GET" "/" [] [("aj-dot-dev##dark-mode", "")])).1.DarkMode = false ∧
      (getTmplData 0 demoLinks (demoRequest "GET" "/" [] [])).1.DarkMode = false :=
  ⟨(getTmplData_darkMode 0 demoLinks
      (demoRequest "GET" "/" [] [("aj-dot-dev##dark-mode", "dark")])).1.mpr
      ⟨_, rfl, rfl⟩,
   by decide, by decide, by decide, by decide⟩

/-! ## Compression negotiation -/

/-- C10 as stated fails: a request whose single `Accept-Encoding` value is
"gzip, deflate, br" advertises gzip when the value is read as a comma-separated
list, yet `canCompress` returns false for it. -/
theorem canCompress_comma_list_counterexample :
    "gzip" ∈ advertisedEncodings
        (demoRequest "GET" "/" [("Accept-Encoding", ["gzip, deflate, br"])] []) ∧
      canCompress
        (demoRequest "GET" "/" [("Accept-Encoding", ["gzip, deflate, br"])] []) = false := by
  decide

/-- C10, amended: `canCompress` returns true exactly when one of the request's
`Accept-Encoding` header values is, as a whole, the string "gzip". Values are
not split at commas and no quality value is parsed: a request with a single
value yields true only if that value is "gzip", and a request with no
`Accept-Encoding` value yields false. -/
theorem canCompress_iff_whole_value (r : Request) :
    (canCompress r = true ↔ "gzip" ∈ r.Header.values "Accept-Encoding") ∧
      (∀ v, r.Header.values "Accept-Encoding" = [v] →
        (canCompress r = true ↔ v = "gzip")) ∧
      (r.Header.values "Accept-Encoding" = [] → canCompress r = false) := by
  refine ⟨?_, ?_, ?_⟩
  · unfold canCompress
    rw [List.any_eq_true]
    constructor
    · rintro ⟨x, hx, hxe⟩
      have : x = "gzip" := by simpa using hxe
      exact this ▸ hx
    · intro h
      exact ⟨"gzip", h, by simp⟩
  · intro v hv
    unfold canCompress
    rw [hv]
    simp
  · intro h
    unfold canCompress
    rw [h]
    rfl

/-- C10, amended, on the single values "gzip", "gzip, deflate, br", "deflate"
and "x-gzip", and on a request without the header. -/
theorem canCompress_iff_whole_value_witness :
    canCompress (demoRequest "GET" "/" [("Accept-Encoding", ["gzip"])] []) = true ∧
      ¬ canCompress
        (demoRequest "GET" "/" [("Accept-Encoding", ["gzip, deflate, br"])] []) = true ∧
      canCompress (demoRequest "GET" "/" [("Accept-Encoding", ["deflate"])] []) = false ∧
      canCompress (demoRequest "GET" "/" [("Accept-Encoding", ["x-gzip"])] []) = false ∧
      canCompress (demoRequest "GET" "/" [] []) = false :=
  ⟨((canCompress_iff_whole_value
        (demoRequest "GET" "/" [("Accept-Encoding", ["gzip"])] [])).2.1 "gzip" rfl).mpr rfl,
   fun h => absurd
     (((canCompress_iff_whole_value
        (demoRequest "GET" "/" [("Accept-Encoding", ["gzip, deflate, br"])] [])).2.1
        "gzip, deflate, br" rfl).mp h) (by decide),
   by decide, by decide,
   (canCompress_iff_whole_value (demoRequest "GET" "/" [] [])).2.2 rfl⟩

/-! ## The response writer under a sequence of writes -/

/-- Closing a writer yields a response: what was committed, or status 200 with
the current headers, and the body written so far. -/
theorem close_response (w : ResponseWriter) :
    w.Close.response =
      some { status := w.committed.1, header := w.committed.2, body := w.body } := by
  unfold ResponseWriter.Close ResponseWriter.WriteHeader ResponseWriter.response
    ResponseWriter.committed
  cases h : w.sent <;> simp [h]

/-- A write does not change what is or will be committed. -/
theorem write_committed (w : ResponseWriter) (p : Bytes) :
    (w.Write p).committed = w.committed := by
  unfold ResponseWriter.Write ResponseWriter.WriteHeader ResponseWriter.committed
  cases h : w.sent <;> simp [h]

/-- A write appends to the body. -/
theorem write_body (w : ResponseWriter) (p : Bytes) :
    (w.Write p).body = w.body ++ p := by
  unfold ResponseWriter.Write ResponseWriter.WriteHeader
  cases h : w.sent <;> simp [h]

/-- Plain writes followed by the close: the commitment is the one pending
before the first write, the body is extended by everything written. -/
theorem foldl_write_close (ws : List Bytes) (w : ResponseWriter) :
    (ws.foldl (fun w p => w.Write p) w).Close.response =
      some { status := w.committed.1, header := w.committed.2,
             body := w.body ++ ws.flatten } := by
  induction ws generalizing w with
  | nil => simpa using close_response w
  | cons p ps ih =>
    rw [List.foldl_cons, ih, write_committed, write_body]
    simp

/-- Writes through gzip, the deferred close of the gzip writer, then the close
of the response: the body is extended by the gzip stream of everything
written. -/
theorem foldl_gzip_close (g : Bytes → Bytes) (ws : List Bytes) (gz : GzipWriter)
    (w : ResponseWriter) :
    (GzipWriter.Close (ws.foldl (fun s p => s.1.Write s.2 p) (gz, w)).1 g
        (ws.foldl (fun s p => s.1.Write s.2 p) (gz, w)).2).Close.response =
      some { status := w.committed.1, header := w.committed.2,
             body := w.body ++ g (gz.pending ++ ws.flatten) } := by
  induction ws generalizing gz w with
  | nil =>
    simp only [List.foldl_nil, GzipWriter.Close]
    rw [close_response, write_committed, write_body]
    simp
  | cons p ps ih =>
    rw [List.foldl_cons, ih]
    unfold GzipWriter.Write
    by_cases hh : gz.wroteHeader = true
    · simp [hh]
    · simp [hh, write_committed, write_body]

/-- The shared page block, when the template executes without error: the
handler returns, and the closed writer holds the commitment pending on entry
(taken after `Content-Encoding` is set, in the gzip case) and the template
output, gzip-encoded if the client can take it. -/
theorem writeTemplate_ok (env : Env) (r : Request) (w : ResponseWriter) (t : TmplResult)
    (ht : t.failed = false) :
    (writeTemplate env r w t).2 = Exit.returned ∧
      (writeTemplate env r w t).1.Close.response =
        some (if canCompress r then
                { status := (w.SetHeader "Content-Encoding" "gzip").committed.1,
                  header := (w.SetHeader "Content-Encoding" "gzip").committed.2,
                  body := w.body ++ env.gzip t.output }
              else
                { status := w.committed.1, header := w.committed.2,
                  body := w.body ++ t.output }) := by
  unfold writeTemplate
  by_cases hc : canCompress r = true
  · simp only [hc, if_true, ht]
    refine ⟨by simp, ?_⟩
    have := foldl_gzip_close env.gzip t.writes GzipWriter.new
      (w.SetHeader "Content-Encoding" "gzip")
    simpa [GzipWriter.new, TmplResult.output, ResponseWriter.SetHeader] using this
  · simp only [hc, ht]
    refine ⟨by simp, ?_⟩
    simpa [TmplResult.output] using foldl_write_close t.writes w

/-! ## Page routes -/

/-- A registered page path is neither the favicon path nor under `/static`. -/
theorem pages_lookup_some (p t : String) (h : pages.lookup p = some t) :
    (p == "/favicon.ico") = false ∧ HasPrefix p "/static" = false := by
  have hp : p = "/" ∨ p = "/about" ∨ p = "/particles" ∨ p = "/resume" := by
    by_contra hne
    simp only [not_or] at hne
    obtain ⟨h1, h2, h3, h4⟩ := hne
    have e1 : (p == "/") = false := by simpa using h1
    have e2 : (p == "/about") = false := by simpa using h2
    have e3 : (p == "/particles") = false := by simpa using h3
    have e4 : (p == "/resume") = false := by simpa using h4
    simp [pages, List.lookup, e1, e2, e3, e4] at h
  rcases hp with rfl | rfl | rfl | rfl <;> decide

/-- The method filter lets `GET` through. -/
theorem get_not_rejected (r : Request) (hm : r.Method = "GET") :
    (r.Method == "POST" || r.Method == "PUT" || r.Method == "PATCH"
      || r.Method == "DELETE") = false ∧ (r.Method == "GET") = true := by
  rw [hm]
  decide

/-- `getTmplData` leaves method, path and headers of the request alone. -/
theorem getTmplData_request (now : Nat) (links : List navLink) (r : Request) :
    (getTmplData now links r).2.2.Method = r.Method ∧
      (getTmplData now links r).2.2.Path = r.Path ∧
      canCompress (getTmplData now links r).2.2 = canCompress r := by
  unfold getTmplData
  cases r.Cookie darkModeCookieKey <;> exact ⟨rfl, rfl, rfl⟩

/-- C2 as stated fails: `GET /` with `Accept-Encoding: gzip` is answered with
the gzip stream of the rendering, which is not the rendering. -/
theorem registered_page_gzip_counterexample :
    (demoRequest "GET" "/" [("Accept-Encoding", ["gzip"])] []).Method = "GET" ∧
      pages.lookup (demoRequest "GET" "/" [("Accept-Encoding", ["gzip"])] []).Path =
        some "content/templates/index.html" ∧
      (serve demoEnv demoLinks
          (demoRequest "GET" "/" [("Accept-Encoding", ["gzip"])] [])).map Response.body =
        some (demoGzip (demoEnv.executePage "content/templates/index.html" "index.html"
          (getTmplData demoEnv.now demoLinks
            (demoRequest "GET" "/" [("Accept-Encoding", ["gzip"])] [])).1).output) ∧
      (serve demoEnv demoLinks
          (demoRequest "GET" "/" [("Accept-Encoding", ["gzip"])] [])).map Response.body ≠
        some (demoEnv.executePage "content/templates/index.html" "index.html"
          (getTmplData demoEnv.now demoLinks
            (demoRequest "GET" "/" [("Accept-Encoding", ["gzip"])] [])).1).output := by
  decide

/-- C2, amended: for every GET request on a registered page path whose template
parses and executes without error, whatever the other headers and cookies, the
response has status 200, Content-Type "text/html" and Cache-Control exactly
"public, max-age=604800"; its body is the rendering of the template registered
for the path (base name of `pages[path]`) on the request's template data when
`canCompress` is false for the request, and the gzip stream of that rendering,
sent with Content-Encoding "gzip", when it is true. -/
theorem registered_page_response (env : Env) (links : List navLink) (r : Request)
    (pageTmpl : String)
    (hm : r.Method = "GET")
    (hp : pages.lookup r.Path = some pageTmpl)
    (hparse : env.parsePage pageTmpl = true)
    (hexec : (env.executePage pageTmpl (Base pageTmpl)
        (getTmplData env.now links r).1).failed = false) :
    ∃ resp, serve env links r = some resp ∧
      resp.status = 200 ∧
      resp.header.values "Content-Type" = ["text/html"] ∧
      resp.header.values "Cache-Control" = ["public, max-age=604800"] ∧
      resp.header.values "Content-Encoding" = (if canCompress r then ["gzip"] else []) ∧
      resp.body =
        (if canCompress r then
          env.gzip (env.executePage pageTmpl (Base pageTmpl)
            (getTmplData env.now links r).1).output
         else
          (env.executePage pageTmpl (Base pageTmpl)
            (getTmplData env.now links r).1).output) := by
  obtain ⟨hfav, hstatic⟩ := pages_lookup_some r.Path pageTmpl hp
  obtain ⟨hrej, hget⟩ := get_not_rejected r hm
  obtain ⟨_, _, hcc⟩ := getTmplData_request env.now links r
  obtain ⟨hexit, hresp⟩ := writeTemplate_ok env (getTmplData env.now links r).2.2
    ((ResponseWriter.fresh.SetHeader "Content-Type" "text/html").SetHeader
      "Cache-Control" (cacheControl cacheMaxAge))
    (env.executePage pageTmpl (Base pageTmpl) (getTmplData env.now links r).1) hexec
  have hserve : serve env links r =
      (writeTemplate env (getTmplData env.now links r).2.2
        ((ResponseWriter.fresh.SetHeader "Content-Type" "text/html").SetHeader
          "Cache-Control" (cacheControl cacheMaxAge))
        (env.executePage pageTmpl (Base pageTmpl)
          (getTmplData env.now links r).1)).1.Close.response := by
    unfold serve handler
    simp only [hrej, hfav, hstatic, hp, hget, hparse, if_true, hexit]
    simp
  have hplain : ((ResponseWriter.fresh.SetHeader "Content-Type" "text/html").SetHeader
      "Cache-Control" (cacheControl cacheMaxAge)).committed =
      (200, [("Content-Type", ["text/html"]),
             ("Cache-Control", ["public, max-age=604800"])]) := by decide
  have hgz : (((ResponseWriter.fresh.SetHeader "Content-Type" "text/html").SetHeader
      "Cache-Control" (cacheControl cacheMaxAge)).SetHeader
      "Content-Encoding" "gzip").committed =
      (200, [("Content-Type", ["text/html"]),
             ("Cache-Control", ["public, max-age=604800"]),
             ("Content-Encoding", ["gzip"])]) := by decide
  have hbody : ((ResponseWriter.fresh.SetHeader "Content-Type" "text/html").SetHeader
      "Cache-Control" (cacheControl cacheMaxAge)).body = [] := rfl
  rw [hserve, hresp, hcc, hplain, hgz, hbody]
  cases hc : canCompress r
  · simp only [Bool.false_eq_true, if_false, List.nil_append]
    have h1 : Header.values [("Content-Type", ["text/html"]),
        ("Cache-Control", ["public, max-age=604800"])] "Content-Type" = ["text/html"] := by
      decide
    have h2 : Header.values [("Content-Type", ["text/html"]),
        ("Cache-Control", ["public, max-age=604800"])] "Cache-Control" =
        ["public, max-age=604800"] := by decide
    have h3 : Header.values [("Content-Type", ["text/html"]),
        ("Cache-Control", ["public, max-age=604800"])] "Content-Encoding" = [] := by decide
    exact ⟨_, rfl, rfl, h1, h2, h3, rfl⟩
  · simp only [if_true, List.nil_append]
    have h1 : Header.values [("Content-Type", ["text/html"]),
        ("Cache-Control", ["public, max-age=604800"]),
        ("Content-Encoding", ["gzip"])] "Content-Type" = ["text/html"] := by decide
    have h2 : Header.values [("Content-Type", ["text/html"]),
        ("Cache-Control", ["public, max-age=604800"]),
        ("Content-Encoding", ["gzip"])] "Cache-Control" =
        ["public, max-age=604800"] := by decide
    have h3 : Header.values [("Content-Type", ["text/html"]),
        ("Cache-Control", ["public, max-age=604800"]),
        ("Content-Encoding", ["gzip"])] "Content-Encoding" = ["gzip"] := by decide
    exact ⟨_, rfl, rfl, h1, h2, h3, rfl⟩

/-- C2, amended, at `GET /about` with the cookie set to "dark", once with
`Accept-Encoding: gzip` and once with the browser-style value
"gzip, deflate, br" (which `canCompress` does not take for gzip). -/
theorem registered_page_response_witness :
    (∃ resp, serve demoEnv demoLinks
          (demoRequest "GET" "/about" [("Accept-Encoding", ["gzip"])]
            [("aj-dot-dev##dark-mode", "dark")]) = some resp ∧
        resp.status = 200 ∧
        resp.header.values "Cache-Control" = ["public, max-age=604800"] ∧
        resp.header.values "Content-Encoding" = ["gzip"] ∧
        resp.body = demoGzip (bytesOf "about.html" ++ [1] ++ [0, 1])) ∧
      serve demoEnv demoLinks
          (demoRequest "GET" "/about" [("Accept-Encoding", ["gzip, deflate, br"])]
            [("aj-dot-dev##dark-mode", "dark")]) =
        some { status := 200,
               header := [("Content-Type", ["text/html"]),
                          ("Cache-Control", ["public, max-age=604800"])],
               body := bytesOf "about.html" ++ [1] ++ [0, 1] } := by
  obtain ⟨resp, h1, h2, _, h4, h5, h6⟩ := registered_page_response demoEnv demoLinks
    (demoRequest "GET" "/about" [("Accept-Encoding", ["gzip"])]
      [("aj-dot-dev##dark-mode", "dark")])
    "content/templates/about.html" rfl (by decide) rfl rfl
  exact ⟨⟨resp, h1, h2, h4, h5, h6⟩, by decide⟩

/-- C5 at `GET /staticfoo` and `GET /static`: neither path is the favicon path,
begins with "/static/" or is a registered page, yet both are taken by the static
route, whose test is the prefix "/static" while the file name is cut with
"/static/": the name handed to `ReadFile` is the whole path, which is not a
valid file name, and the answer is status 404 with no Content-Type and an empty
body, where the rendering of the not-found template is not empty.
`GET /nonexistent` does reach the page registry and gets that rendering. -/
theorem staticfoo_answered_on_static_route :
    (demoRequest "GET" "/staticfoo" [] []).Path ≠ "/favicon.ico" ∧
      HasPrefix (demoRequest "GET" "/staticfoo" [] []).Path "/static/" = false ∧
      pages.lookup (demoRequest "GET" "/staticfoo" [] []).Path = none ∧
      HasPrefix (demoRequest "GET" "/staticfoo" [] []).Path "/static" = true ∧
      TrimPrefix (demoRequest "GET" "/staticfoo" [] []).Path "/static/" = "/staticfoo" ∧
      ValidPath "/staticfoo" = false ∧
      serve demoEnv demoLinks (demoRequest "GET" "/staticfoo" [] []) =
        some { status := 404,
               header := [("Cache-Control", ["public, max-age=86400"])],
               body := [] } ∧
      serve demoEnv demoLinks (demoRequest "GET" "/static" [] []) =
        some { status := 404,
               header := [("Cache-Control", ["public, max-age=86400"])],
               body := [] } ∧
      (demoEnv.execute404 "404.html"
        (getTmplData demoEnv.now demoLinks
          (demoRequest "GET" "/staticfoo" [] [])).1).output ≠ [] ∧
      serve demoEnv demoLinks (demoRequest "GET" "/nonexistent" [] []) =
        some { status := 404,
               header := [("Content-Type", ["text/html"]),
                          ("Cache-Control", ["public, max-age=86400"])],
               body := bytesOf "404.html" ++ [0] ++ [0, 0] } := by
  decide

/-- The not-found page: for every GET request whose path is not "/favicon.ico",
does not begin with "/static" and is not a key of the page registry, and for
which the not-found template executes without error, the response has status
404, Content-Type "text/html" and Cache-Control "public, max-age=86400"; its
body is the rendering of "404.html" on the request's template data when
`canCompress` is false for the request and the gzip stream of that rendering
when it is true; the template data carries the navigation links, names and
paths as in the list. -/
theorem unregistered_page_response (env : Env) (links : List navLink) (r : Request)
    (hm : r.Method = "GET")
    (hfav : r.Path ≠ "/favicon.ico")
    (hstatic : HasPrefix r.Path "/static" = false)
    (hp : pages.lookup r.Path = none)
    (hexec : (env.execute404 "404.html" (getTmplData env.now links r).1).failed = false) :
    ∃ resp, serve env links r = some resp ∧
      resp.status = 404 ∧
      resp.header.values "Content-Type" = ["text/html"] ∧
      resp.header.values "Cache-Control" = ["public, max-age=86400"] ∧
      resp.body =
        (if canCompress r then
          env.gzip (env.execute404 "404.html" (getTmplData env.now links r).1).output
         else
          (env.execute404 "404.html" (getTmplData env.now links r).1).output) ∧
      (getTmplData env.now links r).1.NavLinks.map navLink.Name = links.map navLink.Name ∧
      (getTmplData env.now links r).1.NavLinks.map navLink.Path = links.map navLink.Path := by
  have hfav1 : (r.Path == "/favicon.ico") = false := by simpa using hfav
  obtain ⟨hrej, hget⟩ := get_not_rejected r hm
  obtain ⟨_, _, hcc⟩ := getTmplData_request env.now links r
  obtain ⟨hexit, hresp⟩ := writeTemplate_ok env (getTmplData env.now links r).2.2
    (((ResponseWriter.fresh.SetHeader "Content-Type" "text/html").SetHeader
      "Cache-Control" (cacheControl cacheMaxAge404)).WriteHeader 404)
    (env.execute404 "404.html" (getTmplData env.now links r).1) hexec
  have hserve : serve env links r =
      (writeTemplate env (getTmplData env.now links r).2.2
        (((ResponseWriter.fresh.SetHeader "Content-Type" "text/html").SetHeader
          "Cache-Control" (cacheControl cacheMaxAge404)).WriteHeader 404)
        (env.execute404 "404.html" (getTmplData env.now links r).1)).1.Close.response := by
    unfold serve handler
    simp only [hrej, hfav1, hstatic, hp, hget, if_true, hexit]
    simp
  have hplain : (((ResponseWriter.fresh.SetHeader "Content-Type" "text/html").SetHeader
      "Cache-Control" (cacheControl cacheMaxAge404)).WriteHeader 404).committed =
      (404, [("Content-Type", ["text/html"]),
             ("Cache-Control", ["public, max-age=86400"])]) := by decide
  have hgz : ((((ResponseWriter.fresh.SetHeader "Content-Type" "text/html").SetHeader
      "Cache-Control" (cacheControl cacheMaxAge404)).WriteHeader 404).SetHeader
      "Content-Encoding" "gzip").committed =
      (404, [("Content-Type", ["text/html"]),
             ("Cache-Control", ["public, max-age=86400"])]) := by decide
  have hbody : (((ResponseWriter.fresh.SetHeader "Content-Type" "text/html").SetHeader
      "Cache-Control" (cacheControl cacheMaxAge404)).WriteHeader 404).body = [] := rfl
  have h1 : Header.values [("Content-Type", ["text/html"]),
      ("Cache-Control", ["public, max-age=86400"])] "Content-Type" = ["text/html"] := by
    decide
  have h2 : Header.values [("Content-Type", ["text/html"]),
      ("Cache-Control", ["public, max-age=86400"])] "Cache-Control" =
      ["public, max-age=86400"] := by decide
  have hnames : (getTmplData env.now links r).1.NavLinks.map navLink.Name =
      links.map navLink.Name := by
    show (links.map _).map navLink.Name = _
    rw [List.map_map]; rfl
  have hpaths : (getTmplData env.now links r).1.NavLinks.map navLink.Path =
      links.map navLink.Path := by
    show (links.map _).map navLink.Path = _
    rw [List.map_map]; rfl
  rw [hserve, hresp, hcc, hplain, hgz, hbody]
  cases hc : canCompress r
  · simp only [Bool.false_eq_true, if_false, List.nil_append]
    exact ⟨_, rfl, rfl, h1, h2, rfl, hnames, hpaths⟩
  · simp only [if_true, List.nil_append]
    exact ⟨_, rfl, rfl, h1, h2, rfl, hnames, hpaths⟩

/-- The not-found page at `GET /nonexistent`, with both links inactive. -/
theorem unregistered_page_response_witness :
    ∃ resp, serve demoEnv demoLinks (demoRequest "GET" "/nonexistent" [] []) = some resp ∧
      resp.status = 404 ∧
      resp.header.values "Content-Type" = ["text/html"] ∧
      resp.header.values "Cache-Control" = ["public, max-age=86400"] ∧
      resp.body = bytesOf "404.html" ++ [0] ++ [0, 0] := by
  obtain ⟨resp, h1, h2, h3, h4, h5, _⟩ := unregistered_page_response demoEnv demoLinks
    (demoRequest "GET" "/nonexistent" [] []) rfl (by decide) (by decide) (by decide) rfl
  exact ⟨resp, h1, h2, h3, h4, h5⟩

/-! ## Asset routes and the order of header and status -/

/-- C3 at `GET /static/LICENSE`, a stored file without extension: status 200,
the long cache lifetime and the file as body, but the fallback Content-Type
sent is "application/octect-stream", not "application/octet-stream". A file
with a listed extension, `GET /static/style.css`, gets the table entry. -/
theorem static_fallback_content_type :
    serve demoEnv demoLinks (demoRequest "GET" "/static/LICENSE" [] []) =
        some { status := 200,
               header := [("Content-Type", ["application/octect-stream"]),
                          ("Cache-Control", ["public, max-age=604800"])],
               body := [7] } ∧
      "application/octect-stream" ≠ "application/octet-stream" ∧
      serve demoEnv demoLinks (demoRequest "GET" "/static/style.css" [] []) =
        some { status := 200,
               header := [("Content-Type", ["text/css"]),
                          ("Cache-Control", ["public, max-age=604800"])],
               body := [1, 2, 3] } := by
  decide

/-- C4 at `GET /favicon.ico` with no favicon stored: the response is 404 with an
empty body and no Cache-Control header, because the header is set on the live
map only after `WriteHeader(404)` committed the headers. The static route,
`GET /static/missing.css`, sets the header first and sends it. -/
theorem favicon_miss_cache_control :
    ReadFile demoEnv.static "favicon.ico" = none ∧
      serve demoEnv demoLinks (demoRequest "GET" "/favicon.ico" [] []) =
        some { status := 404, header := [], body := [] } ∧
      (handler demoEnv demoLinks (demoRequest "GET" "/favicon.ico" [] [])
          ResponseWriter.fresh).w.header =
        [("Cache-Control", ["public, max-age=86400"])] ∧
      serve demoEnv demoLinks (demoRequest "GET" "/static/missing.css" [] []) =
        some { status := 404,
               header := [("Cache-Control", ["public, max-age=86400"])],
               body := [] } := by
  decide

/-- C8 at `GET /` without cookies: the response carries no Set-Cookie header;
the default cookie ends up among the cookies of the request, as name and value
only. -/
theorem default_cookie_not_sent :
    (demoRequest "GET" "/" [] []).Cookie "aj-dot-dev##dark-mode" = none ∧
      serve demoEnv demoLinks (demoRequest "GET" "/" [] []) =
        some { status := 200,
               header := [("Content-Type", ["text/html"]),
                          ("Cache-Control", ["public, max-age=604800"])],
               body := bytesOf "index.html" ++ [0] ++ [1, 0] } ∧
      (handler demoEnv demoLinks (demoRequest "GET" "/" [] [])
          ResponseWriter.fresh).w.header.values "Set-Cookie" = [] ∧
      (handler demoEnv demoLinks (demoRequest "GET" "/" [] [])
          ResponseWriter.fresh).request.Cookies = [("aj-dot-dev##dark-mode", "light")] := by
  decide

/-- C9 at `GET /nonexistent` with `Accept-Encoding: gzip`: the body is the gzip
stream of the body sent without that header and the status is the same, 404,
but the headers sent do not include Content-Encoding, which is set only after
`WriteHeader(404)`. On a registered page, `GET /`, the header is sent. -/
theorem not_found_gzip_header_not_sent :
    serve demoEnv demoLinks
        (demoRequest "GET" "/nonexistent" [("Accept-Encoding", ["gzip"])] []) =
        some { status := 404,
               header := [("Content-Type", ["text/html"]),
                          ("Cache-Control", ["public, max-age=86400"])],
               body := demoGzip (bytesOf "404.html" ++ [0] ++ [0, 0]) } ∧
      serve demoEnv demoLinks (demoRequest "GET" "/nonexistent" [] []) =
        some { status := 404,
               header := [("Content-Type", ["text/html"]),
                          ("Cache-Control", ["public, max-age=86400"])],
               body := bytesOf "404.html" ++ [0] ++ [0, 0] } ∧
      demoGunzip (demoGzip (bytesOf "404.html" ++ [0] ++ [0, 0])) =
        bytesOf "404.html" ++ [0] ++ [0, 0] ∧
      (serve demoEnv demoLinks
        (demoRequest "GET" "/" [("Accept-Encoding", ["gzip"])] [])).map
          (fun resp => resp.header.values "Content-Encoding") = some ["gzip"] := by
  decide

end AjDev
